import Mathlib

/-!
# GetPawtrait-Shopify: the customization request lifecycle

A shallow embedding of

* `app/routes/app.customize.$productId.jsx`: the route `loader` (the product
  global id it queries), the route `action` (the submission handler) and the
  React component `CustomizeProduct` (its hook state and event handlers);
* `prisma/seed.js`: the style provisioning loop of `main`.

JavaScript values are embedded as follows.  A value that may be `null` or
`undefined` is an `Option`; JavaScript truthiness is spelled out where the
source relies on it (`!x`, `x || y`, `x && y`).  Promise-returning code is
embedded by explicit state passing: a function takes the database before the
call and returns the database after it.
-/

namespace Pawtrait

/-! ## Data model -/

/-- A browser `File` as far as the route looks at it: `name`, MIME `type`, `size` in bytes. -/
structure File where
  name : String
  type : String
  size : Nat
deriving DecidableEq, Repr

/-- A `FormDataEntryValue`: what `FormData.get` yields when the field exists, a string or a `File`. -/
inductive FormDataEntryValue where
  | str (s : String)
  | file (f : File)
deriving DecidableEq, Repr

/-- A multipart form body: the ordered list of (field name, value) entries. -/
abbrev FormData := List (String × FormDataEntryValue)

/-- The method `formData.get(name)`: the first value stored under `name`, `null` when there is none. -/
def FormData.get (formData : FormData) (name : String) : Option FormDataEntryValue :=
  (formData.find? (fun entry => entry.1 == name)).map (fun entry => entry.2)

/-- JavaScript truthiness of the result of `formData.get`: `null` and the empty string are
falsy, a non-empty string is truthy, and a `File` is an object, truthy whatever its size or type. -/
def truthy : Option FormDataEntryValue → Bool
  | none => false
  | some (FormDataEntryValue.str s) => s != ""
  | some (FormDataEntryValue.file _) => true

/-- JavaScript truthiness of a string that may be `null` or `undefined`. -/
def truthyStr : Option String → Bool
  | none => false
  | some s => s != ""

/-- A numeric literal of the seed data, kept exactly: the value is `mantissa / 10 ^ decimals`. -/
structure Decimal where
  mantissa : Nat
  decimals : Nat
deriving DecidableEq, Repr

/-- The columns of a Style that `prisma/seed.js` supplies (the object literal of each preset). -/
structure StyleData where
  name : String
  description : String
  thumbnailUrl : String
  promptTemplate : String
  negativePrompt : String
  parameters : List (String × Decimal)
deriving DecidableEq, Repr

/-- A row of the Style table: the store-assigned `id` and the provisioned columns. -/
structure Style where
  id : String
  data : StyleData
deriving DecidableEq, Repr

/-- The `data` object that `action` hands to `db.generatedImage.create`.  `styleId` and
`productId` are passed on exactly as `formData.get` returned them. -/
structure GeneratedImageData where
  originalImageUrl : String
  generatedImageUrl : String
  styleId : FormDataEntryValue
  productId : FormDataEntryValue
deriving DecidableEq, Repr

/-- A row of the GeneratedImage table. -/
structure GeneratedImage where
  id : String
  createdAt : Nat
  data : GeneratedImageData
deriving DecidableEq, Repr

/-- The two tables behind the `db` handle. -/
structure Db where
  styles : List Style
  generatedImages : List GeneratedImage
deriving DecidableEq, Repr

/-- What the store assigns to a row it accepts. -/
structure Assigned where
  id : String
  createdAt : Nat
deriving DecidableEq, Repr

/-- Modelled from the spec: `db.generatedImage.create` of `app/db.server` (the Prisma client and
its schema are not under src/).  The GeneratedImage table is append-only and the id is generated
on creation.  Whether the store accepts the write, and what it assigns, is the argument `write`:
`Except.ok a` appends one row with the assigned id, `Except.error e` is a rejected write, which
leaves the tables as they were and throws `e`. -/
def Db.generatedImageCreate (db : Db) (write : Except String Assigned) (data : GeneratedImageData) :
    Except String (GeneratedImage × Db) :=
  match write with
  | Except.error e => Except.error e
  | Except.ok a =>
    let record : GeneratedImage := { id := a.id, createdAt := a.createdAt, data := data }
    Except.ok (record, { db with generatedImages := db.generatedImages ++ [record] })

/-! ## The route action -/

/-- The JSON body of a response of `action`, which is also what `useActionData` returns. -/
structure ActionData where
  success : Bool
  error : Option String
  generatedImageUrl : Option String
  generatedImageId : Option String
  message : Option String
deriving DecidableEq, Repr

/-- A response built by `json(body, { status })`; `json(body)` has status 200. -/
structure Response where
  status : Nat
  body : ActionData
deriving DecidableEq, Repr

/-- How a call of `action` ends: it returns a response, or an exception escapes it. -/
inductive Outcome where
  | responded (r : Response)
  | threw (e : String)
deriving DecidableEq, Repr

/-- The failure response of line 51. -/
def validationFailure : Response :=
  { status := 400
    body := { success := false, error := some "Veuillez fournir une photo et un style.",
              generatedImageUrl := none, generatedImageId := none, message := none } }

/-- The placeholder of line 59. -/
def simulatedGeneratedImageUrl : String :=
  "https://via.placeholder.com/400x400/0000FF/FFFFFF?text=Image+IA+Générée"

/-- The placeholder of line 64. -/
def simulatedOriginalImageUrl : String :=
  "https://via.placeholder.com/400x400/FF0000/FFFFFF?text=Image+Originale"

/-- The success response of lines 71-76, built from the created record. -/
def successResponse (record : GeneratedImage) : Response :=
  { status := 200
    body := { success := true, error := none,
              generatedImageUrl := some record.data.generatedImageUrl,
              generatedImageId := some record.id,
              message := some "Image générée avec succès !" } }

/-- The route `action` (lines 43-77).  `db` is the database before the call; the result is the
database after it and how the call ended. -/
def action (db : Db) (write : Except String Assigned) (formData : FormData) : Db × Outcome :=
  let uploadedFile := formData.get "petPhoto"
  let selectedStyleId := formData.get "styleId"
  let productId := formData.get "productId"
  if !truthy uploadedFile || !truthy selectedStyleId || !truthy productId then
    (db, Outcome.responded validationFailure)
  else
    match selectedStyleId, productId with
    | some styleValue, some productValue =>
      match db.generatedImageCreate write
          { originalImageUrl := simulatedOriginalImageUrl
            generatedImageUrl := simulatedGeneratedImageUrl
            styleId := styleValue
            productId := productValue } with
      | Except.error e => (db, Outcome.threw e)
      | Except.ok (generatedRecord, db1) => (db1, Outcome.responded (successResponse generatedRecord))
    | _, _ => (db, Outcome.responded validationFailure) -- not reached: a truthy value is not null

/-- A form field is absent (`null`) or the empty string. -/
def absentOrEmpty (v : Option FormDataEntryValue) : Prop :=
  v = none ∨ v = some (FormDataEntryValue.str "")

instance (v : Option FormDataEntryValue) : Decidable (absentOrEmpty v) := by
  unfold absentOrEmpty; infer_instance

/-- The styleId form value names a Style of the catalog. -/
def styleKnown (db : Db) (v : Option FormDataEntryValue) : Prop :=
  ∃ st ∈ db.styles, v = some (FormDataEntryValue.str st.id)

instance (db : Db) (v : Option FormDataEntryValue) : Decidable (styleKnown db v) := by
  unfold styleKnown; infer_instance

/-- A `File` is an accepted image when it has bytes and an `image/*` MIME type (the `accept`
attribute of the drop zone, line 170). -/
def acceptedImage (f : File) : Bool :=
  decide (0 < f.size) && "image/".isPrefixOf f.type

/-- The photo field holds something other than a usable image: a file without bytes or whose
type is not an image type, or a non-empty plain string. -/
def unusablePhoto (v : Option FormDataEntryValue) : Prop :=
  (∃ f, v = some (FormDataEntryValue.file f) ∧ acceptedImage f = false) ∨
  (∃ s, v = some (FormDataEntryValue.str s) ∧ s ≠ "")

/-! ## The route loader and the hidden productId field -/

/-- The product as the loader returns it (the selection of the GraphQL query, lines 20-27). -/
structure Product where
  id : String
  title : String
  featuredImageUrl : Option String
deriving DecidableEq, Repr

/-- The global id the loader queries (line 31): the template literal
gid://shopify/Product/ followed by the route parameter. -/
def productGid (productId : String) : String :=
  "gid://shopify/Product/" ++ productId

/-- Splitting a character list at every occurrence of `sep`.  The result is never empty:
a list without `sep` is one segment, and an empty list is one empty segment. -/
def splitOnChar (sep : Char) : List Char → List (List Char)
  | [] => [[]]
  | c :: cs =>
    if c = sep then [] :: splitOnChar sep cs
    else (c :: (splitOnChar sep cs).headD []) :: (splitOnChar sep cs).tail

/-- The method `String.prototype.split` with a one-character separator.  The separator used
by the source is the slash, a single UTF-16 code unit that is no part of a surrogate pair, so
splitting by code points and by code units agree. -/
def jsSplit (s : String) (sep : Char) : List String :=
  (splitOnChar sep s.data).map String.mk

/-- The value of the hidden `productId` input (line 229):
`product?.id.split(/).pop() || ""`. -/
def productIdField (product : Option Product) : String :=
  match product with
  | none => ""
  | some p =>
    let last := (jsSplit p.id '/').getLast?
    if truthyStr last then last.getD "" else ""

/-! ## The component `CustomizeProduct` -/

/-- The state cells of the component, one per `useState` of lines 83-89. -/
structure UIState where
  files : List File
  selectedStyle : Option Style
  generatedImageUrl : Option String
  generatedImageId : Option String
  showToast : Bool
  toastMessage : Option String
  toastError : Bool
deriving DecidableEq, Repr

/-- The expression `v || null` on a string that may be undefined. -/
def orNull (v : Option String) : Option String :=
  if truthyStr v then v else none

/-- The initial values handed to the seven `useState` calls of lines 83-89. -/
def initialHooks (actionData : Option ActionData) : UIState :=
  { files := []
    selectedStyle := none
    generatedImageUrl := orNull (actionData.bind (fun d => d.generatedImageUrl))
    generatedImageId := orNull (actionData.bind (fun d => d.generatedImageId))
    showToast := false
    toastMessage := some ""
    toastError := false }

/-- The body of the function passed to `useState` at lines 138-150: the setter calls it makes
for a given `actionData`, applied to the state cells. -/
def actionDataInitializer (actionData : Option ActionData) (s : UIState) : UIState :=
  match actionData with
  | none => s
  | some d =>
    if d.success then
      { s with generatedImageUrl := d.generatedImageUrl
               generatedImageId := d.generatedImageId
               toastMessage := d.message
               toastError := false
               showToast := true }
    else if truthyStr d.error then
      { s with toastMessage := d.error
               toastError := true
               showToast := true }
    else s

/-- One render of the component: the state cells after it.  `stored` is `none` on the first
render of an instance and the current cells afterwards.  The hook `useState` evaluates its
argument on the first render only: there the seven cells take their initial values and the
function of lines 138-150, being the argument of an eighth `useState`, is called once (its
second argument, the array `[actionData]`, is ignored by `useState`).  On every later render
each `useState` returns the stored cell and calls nothing. -/
def CustomizeProduct.render (actionData : Option ActionData) (stored : Option UIState) : UIState :=
  match stored with
  | none => actionDataInitializer actionData (initialHooks actionData)
  | some s => s

/-- The handler `handleDropZoneDrop` (lines 92-97): the accepted files are appended. -/
def handleDropZoneDrop (s : UIState) (acceptedFiles : List File) : UIState :=
  { s with files := s.files ++ acceptedFiles }

/-- The constant `uploadedFile` of line 119: `files[0]`, undefined for an empty list. -/
def uploadedFile (s : UIState) : Option File :=
  s.files.head?

/-- The click handler of a style tile (line 198). -/
def selectStyle (s : UIState) (style : Style) : UIState :=
  { s with selectedStyle := some style }

/-- The handler `handleAddToCart` (lines 122-135). -/
def handleAddToCart (s : UIState) : UIState :=
  if !truthyStr s.generatedImageUrl || !truthyStr s.generatedImageId then
    { s with toastMessage := some "Veuillez générer une image avant d\x27ajouter au panier."
             toastError := true
             showToast := true }
  else
    { s with toastMessage := some "Produit ajouté au panier (simulation) !"
             toastError := false
             showToast := true }

/-- The `onDismiss` of the toast (line 153). -/
def dismissToast (s : UIState) : UIState :=
  { s with showToast := false }

/-- The `disabled` attribute of the submit button (line 236): `!uploadedFile || !selectedStyle`.
A `File` and a Style object are truthy, so each operand tests for absence only. -/
def submitDisabled (s : UIState) : Bool :=
  (uploadedFile s).isNone || s.selectedStyle.isNone

/-- The page: what `useActionData` returns, whether a submission of the form is in flight,
and the state cells of the mounted component. -/
structure Page where
  actionData : Option ActionData
  submitting : Bool
  ui : UIState
deriving DecidableEq, Repr

/-- The events of the page. -/
inductive Event where
  | drop (acceptedFiles : List File)
  | select (style : Style)
  | submit
  | response (data : ActionData)
  | addToCart
  | dismiss
deriving DecidableEq, Repr

/-- The page when the route is entered by navigation: no action data, nothing in flight, the
component freshly mounted. -/
def Page.initial : Page :=
  { actionData := none, submitting := false, ui := CustomizeProduct.render none none }

/-- One step of the page.  A click on a disabled submit button does nothing; an enabled one
posts the form.  A response is delivered only to a submission in flight: it becomes the action
data and the mounted component renders again.  The add-to-cart button exists only while
`generatedImageUrl` is truthy (line 242) and the toast only while `showToast` (line 152). -/
def Page.step (p : Page) : Event → Page
  | Event.drop acceptedFiles => { p with ui := handleDropZoneDrop p.ui acceptedFiles }
  | Event.select style => { p with ui := selectStyle p.ui style }
  | Event.submit => if submitDisabled p.ui then p else { p with submitting := true }
  | Event.response data =>
    if p.submitting then
      { actionData := some data, submitting := false
        ui := CustomizeProduct.render (some data) (some p.ui) }
    else p
  | Event.addToCart =>
    if truthyStr p.ui.generatedImageUrl then { p with ui := handleAddToCart p.ui } else p
  | Event.dismiss => if p.ui.showToast then { p with ui := dismissToast p.ui } else p

/-- The page after a sequence of events. -/
def Page.run (p : Page) (events : List Event) : Page :=
  events.foldl Page.step p

/-- A sequence of photo drops, each handled by `handleDropZoneDrop`. -/
def applyDrops (s : UIState) (drops : List (List File)) : UIState :=
  drops.foldl handleDropZoneDrop s

/-- The event sequence contains a click on the submit button made in a state, reached from the
initial page, where a photo was staged and a style was chosen. -/
def submittedWithBoth (events : List Event) : Prop :=
  ∃ before after, events = before ++ Event.submit :: after ∧
    (Page.run Page.initial before).ui.files ≠ [] ∧
    (Page.run Page.initial before).ui.selectedStyle ≠ none

/-! ## Style provisioning (`prisma/seed.js`) -/

/-- The array `styles` of lines 7-25. -/
def seedStyles : List StyleData :=
  [ { name := "Portrait Royal"
      description := "Transformez votre animal en noble d\x27un autre temps."
      thumbnailUrl := "https://placehold.co/600x400"
      promptTemplate := "A royal portrait of a \x7banimalType\x7d in a renaissance painting style, highly detailed, ornate frame"
      negativePrompt := "modern, blurry, cartoon, low quality"
      parameters := [("strength", ⟨8, 1⟩), ("guidance_scale", ⟨80, 1⟩)] },
    { name := "Pop Art Coloré"
      description := "Donnez à votre compagnon un look pop art inspiré de Warhol."
      thumbnailUrl := "https://placehold.co/600x400.jpg"
      promptTemplate := "A vibrant pop art portrait of a \x7banimalType\x7d in the style of Andy Warhol, bold colors, graphic lines"
      negativePrompt := "realistic, dull, blurry, 3d"
      parameters := [("strength", ⟨9, 1⟩), ("guidance_scale", ⟨70, 1⟩)] } ]

/-- Modelled from the spec: `prisma.style.upsert` (the Prisma client and its schema are not
under src/).  The Style table is keyed by the unique `name`: when a row with the name given in
`where` exists, `update` is applied to its columns and nothing is added; otherwise one row is
created from `create`, with an id the store generates (`newId`, from the table so far). -/
def styleUpsert (newId : List Style → String) (table : List Style) (whereName : String)
    (update : StyleData → StyleData) (create : StyleData) : List Style :=
  if table.any (fun st => st.data.name == whereName) then
    table.map (fun st => if st.data.name == whereName then { st with data := update st.data } else st)
  else
    table ++ [{ id := newId table, data := create }]

/-- The loop of lines 27-33 over an array of presets: one upsert per preset, in order, with the
empty update `{}` (no column is changed). -/
def seedLoop (newId : List Style → String) (styles : List StyleData) (table : List Style) :
    List Style :=
  styles.foldl (fun t style => styleUpsert newId t style.name (fun d => d) style) table

/-- The function `main` of `prisma/seed.js` on the Style table. -/
def main (newId : List Style → String) (table : List Style) : List Style :=
  seedLoop newId seedStyles table

/-- The names of the rows of a Style table. -/
def styleNames (table : List Style) : List String :=
  table.map (fun st => st.data.name)

/-! ## Concrete data used by the examples below -/

/-- A catalog as `main` leaves it on an empty table, with ids `style_1` and `style_2`. -/
def exampleDb : Db :=
  { styles := main (fun t => "style_" ++ toString (t.length + 1)) []
    generatedImages := [] }

/-- A 50 KB JPEG. -/
def examplePhoto : File :=
  { name := "rex.jpg", type := "image/jpeg", size := 51200 }

/-- What a browser submits for a file input with no file chosen: an empty, nameless file. -/
def emptyFile : File :=
  { name := "", type := "application/octet-stream", size := 0 }

/-- A store that accepts the write. -/
def exampleWrite : Except String Assigned :=
  Except.ok { id := "img_1", createdAt := 0 }

/-- The first example scenario of the specification: a photo, a known style, a product id. -/
def validForm : FormData :=
  [("styleId", FormDataEntryValue.str "style_1"), ("productId", FormDataEntryValue.str "778812345"),
   ("petPhoto", FormDataEntryValue.file examplePhoto)]

/-- The third example scenario of the specification: a styleId that names no Style. -/
def unknownStyleForm : FormData :=
  [("styleId", FormDataEntryValue.str "does-not-exist"),
   ("productId", FormDataEntryValue.str "778812345"),
   ("petPhoto", FormDataEntryValue.file examplePhoto)]

/-- A submission whose photo is the empty, nameless file. -/
def emptyPhotoForm : FormData :=
  [("styleId", FormDataEntryValue.str "style_1"), ("productId", FormDataEntryValue.str "778812345"),
   ("petPhoto", FormDataEntryValue.file emptyFile)]

/-- A submission whose photo field is a plain, non-empty string instead of a file. -/
def stringPhotoForm : FormData :=
  [("styleId", FormDataEntryValue.str "style_1"), ("productId", FormDataEntryValue.str "778812345"),
   ("petPhoto", FormDataEntryValue.str "not a file")]

/-- The record the store creates for a submission with the given styleId. -/
def exampleRecord (styleId : String) : GeneratedImage :=
  { id := "img_1", createdAt := 0
    data := { originalImageUrl := simulatedOriginalImageUrl
              generatedImageUrl := simulatedGeneratedImageUrl
              styleId := FormDataEntryValue.str styleId
              productId := FormDataEntryValue.str "778812345" } }

/-- The first seeded style, with the id of `exampleDb`. -/
def exampleStyle : Style :=
  { id := "style_1", data := seedStyles.headD
      { name := "", description := "", thumbnailUrl := "", promptTemplate := "",
        negativePrompt := "", parameters := [] } }

/-- The body of the success response for the record of `validForm`. -/
def exampleSuccess : ActionData :=
  (successResponse (exampleRecord "style_1")).body

/-- A state of the component with a generation result in it. -/
def exampleResultState : UIState :=
  { files := [examplePhoto], selectedStyle := some exampleStyle
    generatedImageUrl := some simulatedGeneratedImageUrl, generatedImageId := some "img_1"
    showToast := false, toastMessage := some "", toastError := false }

/-- A session: a photo is dropped, a style is chosen, the button is clicked. -/
def exampleSession : List Event :=
  [Event.drop [examplePhoto], Event.select exampleStyle, Event.submit]

/-- A Style table that already holds a row named like the first preset, with other columns,
and a row that is no preset. -/
def exampleTable : List Style :=
  [ { id := "a", data := { name := "Portrait Royal", description := "edited", thumbnailUrl := "",
                           promptTemplate := "", negativePrompt := "", parameters := [] } },
    { id := "b", data := { name := "Aquarelle", description := "", thumbnailUrl := "",
                           promptTemplate := "", negativePrompt := "", parameters := [] } } ]

/-- An id generator: the table length, in decimal. -/
def exampleNewId (table : List Style) : String :=
  "style_" ++ toString (table.length + 1)

/-! ## Properties of the route action -/

theorem truthy_iff (v : Option FormDataEntryValue) : truthy v = true ↔ ¬ absentOrEmpty v := by
  unfold absentOrEmpty
  match v with
  | none => simp [truthy]
  | some (FormDataEntryValue.str s) => simp [truthy]
  | some (FormDataEntryValue.file f) => simp [truthy]

theorem truthy_eq_some {v : Option FormDataEntryValue} (h : truthy v = true) : ∃ x, v = some x := by
  match v, h with
  | some x, _ => exact ⟨x, rfl⟩

/-- What `action` does once the three fields are truthy: it goes to the store with the
submitted styleId and productId and answers from the outcome of the write. -/
theorem action_of_truthy (db : Db) (write : Except String Assigned) (formData : FormData)
    (styleValue productValue : FormDataEntryValue)
    (hphoto : truthy (formData.get "petPhoto") = true)
    (hstyle : formData.get "styleId" = some styleValue) (hs : truthy (some styleValue) = true)
    (hproduct : formData.get "productId" = some productValue)
    (hp : truthy (some productValue) = true) :
    action db write formData =
      match write with
      | Except.error e => (db, Outcome.threw e)
      | Except.ok a =>
        ({ db with generatedImages := db.generatedImages ++
              [{ id := a.id, createdAt := a.createdAt
                 data := { originalImageUrl := simulatedOriginalImageUrl
                           generatedImageUrl := simulatedGeneratedImageUrl
                           styleId := styleValue, productId := productValue } }] },
          Outcome.responded (successResponse
            { id := a.id, createdAt := a.createdAt
              data := { originalImageUrl := simulatedOriginalImageUrl
                        generatedImageUrl := simulatedGeneratedImageUrl
                        styleId := styleValue, productId := productValue } })) := by
  unfold action
  simp only [hphoto, hstyle, hproduct, hs, hp]
  cases write <;> simp [Db.generatedImageCreate]

/-- C1.  When at least one of the form fields petPhoto, styleId, productId is absent (null) or
the empty string, `action` answers with the failure body (success false, an error message) and
status 400, and the database after the call is the database before it: no record is created,
whatever the store would have done with a write. -/
theorem action_missing_field (db : Db) (write : Except String Assigned) (formData : FormData)
    (h : absentOrEmpty (formData.get "petPhoto") ∨ absentOrEmpty (formData.get "styleId") ∨
      absentOrEmpty (formData.get "productId")) :
    (action db write formData).1 = db ∧
    ∃ r, (action db write formData).2 = Outcome.responded r ∧ r.status = 400 ∧
      r.body.success = false ∧ r.body.error.isSome = true ∧
      r.body.generatedImageUrl = none ∧ r.body.generatedImageId = none := by
  have hfalsy : (!truthy (formData.get "petPhoto") || !truthy (formData.get "styleId") ||
      !truthy (formData.get "productId")) = true := by
    have h1 := truthy_iff (formData.get "petPhoto")
    have h2 := truthy_iff (formData.get "styleId")
    have h3 := truthy_iff (formData.get "productId")
    rcases h with h | h | h
    · have : truthy (formData.get "petPhoto") = false := by
        cases ht : truthy (formData.get "petPhoto")
        · rfl
        · exact absurd h (h1.mp ht)
      simp [this]
    · have : truthy (formData.get "styleId") = false := by
        cases ht : truthy (formData.get "styleId")
        · rfl
        · exact absurd h (h2.mp ht)
      simp [this]
    · have : truthy (formData.get "productId") = false := by
        cases ht : truthy (formData.get "productId")
        · rfl
        · exact absurd h (h3.mp ht)
      simp [this]
  have hact : action db write formData = (db, Outcome.responded validationFailure) := by
    unfold action
    simp only [hfalsy, if_true]
  rw [hact]
  exact ⟨rfl, validationFailure, rfl, rfl, rfl, rfl, rfl, rfl⟩

/-- The photo is omitted: the second example scenario of the specification. -/
theorem action_missing_field_witness :
    (absentOrEmpty (FormData.get [("styleId", FormDataEntryValue.str "style_1"),
        ("productId", FormDataEntryValue.str "778812345")] "petPhoto") ∨
      absentOrEmpty (FormData.get [("styleId", FormDataEntryValue.str "style_1"),
        ("productId", FormDataEntryValue.str "778812345")] "styleId") ∨
      absentOrEmpty (FormData.get [("styleId", FormDataEntryValue.str "style_1"),
        ("productId", FormDataEntryValue.str "778812345")] "productId")) ∧
    ((action exampleDb exampleWrite [("styleId", FormDataEntryValue.str "style_1"),
        ("productId", FormDataEntryValue.str "778812345")]).1 = exampleDb ∧
      ∃ r, (action exampleDb exampleWrite [("styleId", FormDataEntryValue.str "style_1"),
          ("productId", FormDataEntryValue.str "778812345")]).2 = Outcome.responded r ∧
        r.status = 400 ∧ r.body.success = false ∧ r.body.error.isSome = true ∧
        r.body.generatedImageUrl = none ∧ r.body.generatedImageId = none) :=
  ⟨Or.inl (by decide), action_missing_field exampleDb exampleWrite _ (Or.inl (by decide))⟩

/-- C2.  When petPhoto, styleId and productId are all present (neither null nor the empty
string) and the store accepts the write, the GeneratedImage table afterwards is the table before
followed by exactly one new record, whose styleId and productId are the submitted ones and whose
id is the one the store assigned; the Style table is untouched; and `action` returns status 200
with success true, `generatedImageId` the id of the new record and `generatedImageUrl` the
`generatedImageUrl` of the new record. -/
theorem action_creates_one_record (db : Db) (write : Except String Assigned) (formData : FormData)
    (a : Assigned)
    (hphoto : ¬ absentOrEmpty (formData.get "petPhoto"))
    (hstyle : ¬ absentOrEmpty (formData.get "styleId"))
    (hproduct : ¬ absentOrEmpty (formData.get "productId"))
    (hwrite : write = Except.ok a) :
    ∃ record : GeneratedImage,
      (action db write formData).1.generatedImages = db.generatedImages ++ [record] ∧
      (action db write formData).1.styles = db.styles ∧
      some record.data.styleId = formData.get "styleId" ∧
      some record.data.productId = formData.get "productId" ∧
      record.id = a.id ∧
      ∃ r, (action db write formData).2 = Outcome.responded r ∧ r.status = 200 ∧
        r.body.success = true ∧ r.body.generatedImageId = some record.id ∧
        r.body.generatedImageUrl = some record.data.generatedImageUrl := by
  have h1 := (truthy_iff _).mpr hphoto
  have h2 := (truthy_iff _).mpr hstyle
  have h3 := (truthy_iff _).mpr hproduct
  obtain ⟨sv, hsv⟩ := truthy_eq_some h2
  obtain ⟨pv, hpv⟩ := truthy_eq_some h3
  rw [action_of_truthy db write formData sv pv h1 hsv (hsv ▸ h2) hpv (hpv ▸ h3), hwrite, hsv, hpv]
  exact ⟨_, rfl, rfl, rfl, rfl, rfl, _, rfl, rfl, rfl, rfl, rfl⟩

/-- The first example scenario of the specification. -/
theorem action_creates_one_record_witness :
    ∃ record : GeneratedImage,
      (action exampleDb exampleWrite validForm).1.generatedImages =
        exampleDb.generatedImages ++ [record] ∧
      (action exampleDb exampleWrite validForm).1.styles = exampleDb.styles ∧
      some record.data.styleId = FormData.get validForm "styleId" ∧
      some record.data.productId = FormData.get validForm "productId" ∧
      record.id = "img_1" ∧
      ∃ r, (action exampleDb exampleWrite validForm).2 = Outcome.responded r ∧ r.status = 200 ∧
        r.body.success = true ∧ r.body.generatedImageId = some record.id ∧
        r.body.generatedImageUrl = some record.data.generatedImageUrl :=
  action_creates_one_record exampleDb exampleWrite validForm { id := "img_1", createdAt := 0 }
    (by decide) (by decide) (by decide) rfl

/-- C3, as stated, fails.  The catalog holds the two seeded styles, the submitted styleId
`does-not-exist` is the id of neither, petPhoto and productId are present, and the store accepts
the write: `action` answers with the success response and the record is created. -/
theorem action_unknown_style_succeeds :
    ¬ styleKnown exampleDb (FormData.get unknownStyleForm "styleId") ∧
    action exampleDb exampleWrite unknownStyleForm =
      ({ exampleDb with generatedImages := [exampleRecord "does-not-exist"] },
        Outcome.responded (successResponse (exampleRecord "does-not-exist"))) ∧
    (successResponse (exampleRecord "does-not-exist")).body.success = true := by
  refine ⟨by decide, by decide, rfl⟩

/-- C3, amended.  `action` does not look the styleId up.  For every catalog and every submission
whose styleId is the id of no Style, with petPhoto, styleId and productId present and non-empty:
every response `action` returns is the success response (status 200, success true); when the
store accepts the write, exactly one record carrying the submitted styleId is appended; and when
the store rejects the write, the exception escapes `action` and the database is unchanged. -/
theorem action_ignores_catalog (db : Db) (write : Except String Assigned) (formData : FormData)
    (_hunknown : ¬ styleKnown db (formData.get "styleId"))
    (hphoto : ¬ absentOrEmpty (formData.get "petPhoto"))
    (hstyle : ¬ absentOrEmpty (formData.get "styleId"))
    (hproduct : ¬ absentOrEmpty (formData.get "productId")) :
    (∀ r, (action db write formData).2 = Outcome.responded r →
      r.status = 200 ∧ r.body.success = true) ∧
    (∀ a, write = Except.ok a → ∃ record : GeneratedImage,
      some record.data.styleId = formData.get "styleId" ∧
      action db write formData =
        ({ db with generatedImages := db.generatedImages ++ [record] },
          Outcome.responded (successResponse record))) ∧
    (∀ e, write = Except.error e → action db write formData = (db, Outcome.threw e)) := by
  have h1 := (truthy_iff _).mpr hphoto
  have h2 := (truthy_iff _).mpr hstyle
  have h3 := (truthy_iff _).mpr hproduct
  obtain ⟨sv, hsv⟩ := truthy_eq_some h2
  obtain ⟨pv, hpv⟩ := truthy_eq_some h3
  rw [action_of_truthy db write formData sv pv h1 hsv (hsv ▸ h2) hpv (hpv ▸ h3), hsv]
  refine ⟨?_, ?_, ?_⟩
  · intro r hr
    cases write with
    | error e => simp at hr
    | ok a =>
      simp only [Outcome.responded.injEq] at hr
      subst hr
      exact ⟨rfl, rfl⟩
  · intro a ha
    subst ha
    exact ⟨_, rfl, rfl⟩
  · intro e he
    subst he
    rfl

/-- The third example scenario of the specification, on a store that accepts the write. -/
theorem action_ignores_catalog_witness :
    ¬ styleKnown exampleDb (FormData.get unknownStyleForm "styleId") ∧
    ∃ record : GeneratedImage,
      some record.data.styleId = FormData.get unknownStyleForm "styleId" ∧
      action exampleDb exampleWrite unknownStyleForm =
        ({ exampleDb with generatedImages := exampleDb.generatedImages ++ [record] },
          Outcome.responded (successResponse record)) :=
  ⟨by decide,
    (action_ignores_catalog exampleDb exampleWrite unknownStyleForm (by decide) (by decide)
      (by decide) (by decide)).2.1 _ rfl⟩

theorem truthy_of_unusablePhoto {v : Option FormDataEntryValue} (h : unusablePhoto v) :
    truthy v = true := by
  rcases h with ⟨f, hf, _⟩ | ⟨s, hs, hne⟩
  · subst hf; rfl
  · subst hs; simpa [truthy] using hne

/-- C4, as stated, fails.  With styleId and productId present and a store that accepts the write,
a zero-byte file of type `application/octet-stream` as petPhoto, and likewise a plain non-empty
string as petPhoto, are answered with the success response, and a record is created. -/
theorem action_accepts_unusable_photo :
    (emptyFile.size = 0 ∧ acceptedImage emptyFile = false ∧
      action exampleDb exampleWrite emptyPhotoForm =
        ({ exampleDb with generatedImages := [exampleRecord "style_1"] },
          Outcome.responded (successResponse (exampleRecord "style_1")))) ∧
    (FormData.get stringPhotoForm "petPhoto" = some (FormDataEntryValue.str "not a file") ∧
      action exampleDb exampleWrite stringPhotoForm =
        ({ exampleDb with generatedImages := [exampleRecord "style_1"] },
          Outcome.responded (successResponse (exampleRecord "style_1")))) ∧
    (successResponse (exampleRecord "style_1")).status = 200 ∧
    (successResponse (exampleRecord "style_1")).body.success = true := by
  refine ⟨⟨rfl, by decide, by decide⟩, ⟨by decide, by decide⟩, rfl, rfl⟩

/-- C4, amended.  The only check `action` makes on petPhoto is that it is neither null nor the
empty string; it looks at neither the size nor the type.  For every submission whose petPhoto is
a file without bytes, a file that is not an image, or a non-empty plain string, with styleId and
productId present and non-empty: every response `action` returns is the success response (status
200, success true), never the status-400 failure; when the store accepts the write, exactly one
record is appended; and when the store rejects it, the exception escapes `action` and the
database is unchanged. -/
theorem action_photo_content_unchecked (db : Db) (write : Except String Assigned)
    (formData : FormData)
    (hphoto : unusablePhoto (formData.get "petPhoto"))
    (hstyle : ¬ absentOrEmpty (formData.get "styleId"))
    (hproduct : ¬ absentOrEmpty (formData.get "productId")) :
    (∀ r, (action db write formData).2 = Outcome.responded r →
      r.status = 200 ∧ r.body.success = true) ∧
    (∀ a, write = Except.ok a → ∃ record : GeneratedImage,
      (action db write formData).1.generatedImages = db.generatedImages ++ [record] ∧
      (action db write formData).2 = Outcome.responded (successResponse record)) ∧
    (∀ e, write = Except.error e → action db write formData = (db, Outcome.threw e)) := by
  have h1 := truthy_of_unusablePhoto hphoto
  have h2 := (truthy_iff _).mpr hstyle
  have h3 := (truthy_iff _).mpr hproduct
  obtain ⟨sv, hsv⟩ := truthy_eq_some h2
  obtain ⟨pv, hpv⟩ := truthy_eq_some h3
  rw [action_of_truthy db write formData sv pv h1 hsv (hsv ▸ h2) hpv (hpv ▸ h3)]
  refine ⟨?_, ?_, ?_⟩
  · intro r hr
    cases write with
    | error e => simp at hr
    | ok a =>
      simp only [Outcome.responded.injEq] at hr
      subst hr
      exact ⟨rfl, rfl⟩
  · intro a ha
    subst ha
    exact ⟨_, rfl, rfl⟩
  · intro e he
    subst he
    rfl

/-- The empty, nameless file on a store that accepts the write. -/
theorem action_photo_content_unchecked_witness :
    unusablePhoto (FormData.get emptyPhotoForm "petPhoto") ∧
    ∃ record : GeneratedImage,
      (action exampleDb exampleWrite emptyPhotoForm).1.generatedImages =
        exampleDb.generatedImages ++ [record] ∧
      (action exampleDb exampleWrite emptyPhotoForm).2 =
        Outcome.responded (successResponse record) :=
  ⟨Or.inl ⟨emptyFile, by decide, by decide⟩,
    (action_photo_content_unchecked exampleDb exampleWrite emptyPhotoForm
      (Or.inl ⟨emptyFile, by decide, by decide⟩) (by decide) (by decide)).2.1 _ rfl⟩

/-! ## Properties of the component -/

theorem Page.run_append (p : Page) (xs ys : List Event) :
    Page.run p (xs ++ ys) = Page.run (Page.run p xs) ys := by
  simp [Page.run, List.foldl_append]

theorem submitDisabled_eq_false (s : UIState) :
    submitDisabled s = false ↔ s.files ≠ [] ∧ s.selectedStyle ≠ none := by
  unfold submitDisabled uploadedFile
  cases hf : s.files <;> cases hs : s.selectedStyle <;> simp

theorem submittedWithBoth_snoc {events : List Event} (h : submittedWithBoth events) (e : Event) :
    submittedWithBoth (events ++ [e]) := by
  obtain ⟨before, after, hev, hfiles, hstyle⟩ := h
  exact ⟨before, after ++ [e], by simp [hev], hfiles, hstyle⟩

/-- Along every run from the initial page: a submission in flight, a delivered response or a
stored generation result each presuppose a click on the enabled submit button. -/
theorem guarded_submit_invariant (events : List Event) :
    ((Page.run Page.initial events).submitting = true ∨
      (Page.run Page.initial events).actionData ≠ none ∨
      (Page.run Page.initial events).ui.generatedImageUrl ≠ none) →
    submittedWithBoth events := by
  induction events using List.reverseRecOn with
  | nil =>
    intro h
    rcases h with h | h | h
    · simp [Page.run, Page.initial] at h
    · simp [Page.run, Page.initial] at h
    · simp [Page.run, Page.initial, CustomizeProduct.render, actionDataInitializer, initialHooks,
        orNull, truthyStr] at h
  | append_singleton events e ih =>
    rw [Page.run_append]
    generalize hp : Page.run Page.initial events = p at ih ⊢
    intro h
    cases e with
    | drop acceptedFiles =>
      exact submittedWithBoth_snoc (ih (by simpa [Page.run, Page.step, handleDropZoneDrop] using h)) _
    | select style =>
      exact submittedWithBoth_snoc (ih (by simpa [Page.run, Page.step, selectStyle] using h)) _
    | submit =>
      by_cases hd : submitDisabled p.ui = true
      · exact submittedWithBoth_snoc (ih (by simpa [Page.run, Page.step, hd] using h)) _
      · have hd2 : submitDisabled p.ui = false := by simpa using hd
        have hboth := (submitDisabled_eq_false p.ui).mp hd2
        exact ⟨events, [], rfl, by rw [hp]; exact hboth.1, by rw [hp]; exact hboth.2⟩
    | response data =>
      by_cases hs : p.submitting = true
      · exact submittedWithBoth_snoc (ih (Or.inl hs)) _
      · exact submittedWithBoth_snoc (ih (by simpa [Page.run, Page.step, hs] using h)) _
    | addToCart =>
      by_cases hu : truthyStr p.ui.generatedImageUrl = true
      · refine submittedWithBoth_snoc (ih ?_) _
        simp only [Page.run, List.foldl, Page.step, hu, if_true] at h
        unfold handleAddToCart at h
        split at h <;> simpa using h
      · exact submittedWithBoth_snoc (ih (by simpa [Page.run, Page.step, hu] using h)) _
    | dismiss =>
      by_cases hu : p.ui.showToast = true
      · exact submittedWithBoth_snoc (ih (by simpa [Page.run, Page.step, hu, dismissToast] using h)) _
      · exact submittedWithBoth_snoc (ih (by simpa [Page.run, Page.step, hu] using h)) _

/-- C5.  The submit button is enabled exactly when the staged file list is non-empty and a style
is selected.  Hence, for every sequence of events (photo drop, style selection, click on the
submit button, handler response, add to cart, toast dismissal) from the initial page (no staged
file, no selected style, no action data): if the page reached holds a handler response or the
component holds a generation result (`generatedImageUrl` set), then the sequence contains a click
on the submit button made in a state where a photo was staged and a style was chosen. -/
theorem result_only_after_guarded_submit :
    (∀ s : UIState, submitDisabled s = false ↔ s.files ≠ [] ∧ s.selectedStyle ≠ none) ∧
    (∀ events : List Event,
      ((Page.run Page.initial events).actionData ≠ none ∨
        (Page.run Page.initial events).ui.generatedImageUrl ≠ none) →
      submittedWithBoth events) :=
  ⟨submitDisabled_eq_false, fun events h => guarded_submit_invariant events (Or.inr h)⟩

/-- A session that ends with the success response of the handler. -/
theorem result_only_after_guarded_submit_witness :
    (Page.run Page.initial (exampleSession ++ [Event.response exampleSuccess])).actionData ≠ none ∧
    submitDisabled (Page.run Page.initial [Event.drop [examplePhoto], Event.select exampleStyle]).ui
      = false ∧
    submittedWithBoth (exampleSession ++ [Event.response exampleSuccess]) :=
  ⟨by decide,
    (result_only_after_guarded_submit.1 _).mpr ⟨by decide, by decide⟩,
    result_only_after_guarded_submit.2 _ (Or.inl (by decide))⟩

/-- C6 fails on the code.  A photo is dropped, a style is chosen and the enabled button is
clicked; the success response of the handler then arrives and becomes the action data.  The
state cells of the component after that render are the cells before it: `generatedImageUrl` and
`generatedImageId` are still null and no toast is shown, although the function of lines 138-150,
had it been called with this response, would have stored the result and shown the toast.  The
same holds for the failure response: its error is not shown. -/
theorem response_after_submit_not_applied :
    (Page.run Page.initial exampleSession).submitting = true ∧
    exampleSuccess.success = true ∧
    exampleSuccess.generatedImageUrl = some simulatedGeneratedImageUrl ∧
    (Page.run Page.initial (exampleSession ++ [Event.response exampleSuccess])).actionData
      = some exampleSuccess ∧
    (Page.run Page.initial (exampleSession ++ [Event.response exampleSuccess])).ui
      = (Page.run Page.initial exampleSession).ui ∧
    (Page.run Page.initial (exampleSession ++ [Event.response exampleSuccess])).ui.generatedImageUrl
      = none ∧
    (Page.run Page.initial (exampleSession ++ [Event.response exampleSuccess])).ui.generatedImageId
      = none ∧
    (Page.run Page.initial (exampleSession ++ [Event.response exampleSuccess])).ui.showToast
      = false ∧
    (actionDataInitializer (some exampleSuccess)
      (Page.run Page.initial exampleSession).ui).generatedImageUrl
      = some simulatedGeneratedImageUrl ∧
    (actionDataInitializer (some exampleSuccess)
      (Page.run Page.initial exampleSession).ui).showToast = true ∧
    (Page.run Page.initial (exampleSession ++ [Event.response validationFailure.body])).ui.showToast
      = false ∧
    (actionDataInitializer (some validationFailure.body)
      (Page.run Page.initial exampleSession).ui).showToast = true := by
  refine ⟨by decide, rfl, rfl, by decide, by decide, by decide, by decide, by decide, by decide,
    by decide, by decide, by decide⟩

/-- C7.  In every state of the component, `handleAddToCart` with `generatedImageUrl` or
`generatedImageId` missing (null or empty) shows the toast with the message asking to generate an
image first and the error flag set; with both present it shows the toast with the simulated
confirmation and the error flag cleared.  In both cases the staged files, the selected style,
`generatedImageUrl` and `generatedImageId` are as before: the handler writes the three toast
cells and nothing else, so nothing is added anywhere. -/
theorem handleAddToCart_guard (s : UIState) :
    ((truthyStr s.generatedImageUrl = false ∨ truthyStr s.generatedImageId = false) →
      (handleAddToCart s).showToast = true ∧ (handleAddToCart s).toastError = true ∧
      (handleAddToCart s).toastMessage =
        some "Veuillez générer une image avant d\x27ajouter au panier.") ∧
    ((truthyStr s.generatedImageUrl = true ∧ truthyStr s.generatedImageId = true) →
      (handleAddToCart s).showToast = true ∧ (handleAddToCart s).toastError = false ∧
      (handleAddToCart s).toastMessage = some "Produit ajouté au panier (simulation) !") ∧
    (handleAddToCart s).files = s.files ∧
    (handleAddToCart s).selectedStyle = s.selectedStyle ∧
    (handleAddToCart s).generatedImageUrl = s.generatedImageUrl ∧
    (handleAddToCart s).generatedImageId = s.generatedImageId := by
  unfold handleAddToCart
  refine ⟨?_, ?_, ?_, ?_, ?_, ?_⟩
  · intro h
    have : (!truthyStr s.generatedImageUrl || !truthyStr s.generatedImageId) = true := by
      rcases h with h | h <;> simp [h]
    simp [this]
  · rintro ⟨h1, h2⟩
    simp [h1, h2]
  all_goals split <;> rfl

/-- Add to cart before any generation, and after one. -/
theorem handleAddToCart_guard_witness :
    ((handleAddToCart (CustomizeProduct.render none none)).showToast = true ∧
      (handleAddToCart (CustomizeProduct.render none none)).toastError = true ∧
      (handleAddToCart (CustomizeProduct.render none none)).toastMessage =
        some "Veuillez générer une image avant d\x27ajouter au panier.") ∧
    ((handleAddToCart exampleResultState).showToast = true ∧
      (handleAddToCart exampleResultState).toastError = false ∧
      (handleAddToCart exampleResultState).toastMessage =
        some "Produit ajouté au panier (simulation) !") :=
  ⟨(handleAddToCart_guard (CustomizeProduct.render none none)).1 (Or.inl (by decide)),
    (handleAddToCart_guard exampleResultState).2.1 ⟨by decide, by decide⟩⟩

theorem applyDrops_files (s : UIState) (drops : List (List File)) :
    (applyDrops s drops).files = s.files ++ drops.flatten := by
  induction drops generalizing s with
  | nil => simp [applyDrops]
  | cons d ds ih =>
    have hstep : applyDrops s (d :: ds) = applyDrops (handleDropZoneDrop s d) ds := rfl
    rw [hstep, ih]
    simp [handleDropZoneDrop, List.append_assoc]

/-- C8.  For every sequence of photo drops handled by `handleDropZoneDrop`, from any state of
the component, the staged list afterwards is the staged list before followed by the accepted
files of each drop, in order (from the initial state: exactly their concatenation), and the
active photo `uploadedFile = files[0]`, once defined, is the same after all later drops. -/
theorem drops_accumulate (s : UIState) (drops : List (List File)) :
    (applyDrops s drops).files = s.files ++ drops.flatten ∧
    (applyDrops (CustomizeProduct.render none none) drops).files = drops.flatten ∧
    (∀ f, uploadedFile s = some f → uploadedFile (applyDrops s drops) = some f) := by
  refine ⟨applyDrops_files s drops, ?_, ?_⟩
  · rw [applyDrops_files]; rfl
  · intro f hf
    unfold uploadedFile at hf ⊢
    rw [applyDrops_files]
    cases hfiles : s.files with
    | nil => simp [hfiles] at hf
    | cons x xs => simpa [hfiles] using hf

/-- Two drops after a first photo was staged. -/
theorem drops_accumulate_witness :
    uploadedFile (handleDropZoneDrop (CustomizeProduct.render none none) [examplePhoto])
      = some examplePhoto ∧
    uploadedFile (applyDrops (handleDropZoneDrop (CustomizeProduct.render none none) [examplePhoto])
      [[emptyFile], [emptyFile, examplePhoto]]) = some examplePhoto :=
  ⟨by decide,
    (drops_accumulate (handleDropZoneDrop (CustomizeProduct.render none none) [examplePhoto])
      [[emptyFile], [emptyFile, examplePhoto]]).2.2 examplePhoto (by decide)⟩

/-! ## Properties of the provisioning loop -/

theorem styleUpsert_noop (newId : List Style → String) (table : List Style) (d : StyleData) :
    styleUpsert newId table d.name (fun x => x) d =
      if d.name ∈ styleNames table then table else table ++ [{ id := newId table, data := d }] := by
  unfold styleUpsert styleNames
  by_cases h : d.name ∈ table.map (fun st => st.data.name)
  · have hany : table.any (fun st => st.data.name == d.name) = true := by
      obtain ⟨st, hst, hname⟩ := List.mem_map.mp h
      exact List.any_eq_true.mpr ⟨st, hst, by simp [hname]⟩
    rw [if_pos hany, if_pos h]
    conv_rhs => rw [← List.map_id table]
    apply List.map_congr_left
    intro st _
    split <;> rfl
  · have hany : ¬ table.any (fun st => st.data.name == d.name) = true := by
      intro hany
      obtain ⟨st, hst, hname⟩ := List.any_eq_true.mp hany
      exact h (List.mem_map.mpr ⟨st, hst, by simpa using hname⟩)
    rw [if_neg hany, if_neg h]

theorem seedLoop_cons (newId : List Style → String) (d : StyleData) (l : List StyleData)
    (table : List Style) :
    seedLoop newId (d :: l) table = seedLoop newId l (styleUpsert newId table d.name (fun x => x) d) :=
  rfl

/-- The loop adds, after the rows already there, one row per preset whose name was missing. -/
theorem seedLoop_appends (newId : List Style → String) (l : List StyleData) :
    ∀ table : List Style, (l.map (fun d => d.name)).Nodup →
      ∃ added : List Style, seedLoop newId l table = table ++ added ∧
        added.map (fun st => st.data) = l.filter (fun d => decide (d.name ∉ styleNames table)) := by
  induction l with
  | nil => intro table _; exact ⟨[], by simp [seedLoop], rfl⟩
  | cons d l ih =>
    intro table hnd
    rw [List.map_cons, List.nodup_cons] at hnd
    rw [seedLoop_cons, styleUpsert_noop]
    by_cases h : d.name ∈ styleNames table
    · rw [if_pos h]
      obtain ⟨added, hadd, hdata⟩ := ih table hnd.2
      refine ⟨added, hadd, ?_⟩
      rw [hdata, List.filter_cons_of_neg (by simpa using h)]
    · rw [if_neg h]
      obtain ⟨added, hadd, hdata⟩ := ih (table ++ [{ id := newId table, data := d }]) hnd.2
      refine ⟨{ id := newId table, data := d } :: added, by simp [hadd], ?_⟩
      rw [List.filter_cons_of_pos (by simpa using h), List.map_cons, hdata]
      congr 1
      apply List.filter_congr
      intro x hx
      have hxd : x.name ≠ d.name := by
        intro heq
        exact hnd.1 (List.mem_map.mpr ⟨x, hx, heq⟩)
      simp [styleNames, hxd]

theorem seedLoop_fixed (newId : List Style → String) (l : List StyleData) (table : List Style)
    (h : ∀ d ∈ l, d.name ∈ styleNames table) : seedLoop newId l table = table := by
  induction l with
  | nil => rfl
  | cons d l ih =>
    rw [seedLoop_cons, styleUpsert_noop, if_pos (h d (List.mem_cons_self _ _))]
    exact ih (fun x hx => h x (List.mem_cons_of_mem _ hx))

theorem seedLoop_names (newId : List Style → String) (l : List StyleData) (table : List Style)
    (hnd : (l.map (fun d => d.name)).Nodup) :
    ∀ d ∈ l, d.name ∈ styleNames (seedLoop newId l table) := by
  intro d hd
  obtain ⟨added, hadd, hdata⟩ := seedLoop_appends newId l table hnd
  by_cases h : d.name ∈ styleNames table
  · rw [hadd]; simp only [styleNames, List.map_append, List.mem_append]; exact Or.inl h
  · have hmem : d ∈ added.map (fun st => st.data) := by
      rw [hdata]; exact List.mem_filter.mpr ⟨hd, by simpa using h⟩
    obtain ⟨st, hst, hstd⟩ := List.mem_map.mp hmem
    rw [hadd]
    simp only [styleNames, List.map_append, List.mem_append]
    exact Or.inr (List.mem_map.mpr ⟨st, hst, by rw [hstd]⟩)

theorem seedLoop_nodup (newId : List Style → String) (l : List StyleData) (table : List Style)
    (hnd : (l.map (fun d => d.name)).Nodup) (htable : (styleNames table).Nodup) :
    (styleNames (seedLoop newId l table)).Nodup := by
  obtain ⟨added, hadd, hdata⟩ := seedLoop_appends newId l table hnd
  have hnames : styleNames added =
      (l.filter (fun d => decide (d.name ∉ styleNames table))).map (fun d => d.name) := by
    rw [← hdata]; simp [styleNames, List.map_map, Function.comp_def]
  rw [hadd]
  have happ : styleNames (table ++ added) = styleNames table ++ styleNames added := by
    simp [styleNames]
  rw [happ, List.nodup_append]
  refine ⟨htable, ?_, ?_⟩
  · rw [hnames]
    exact (hnd.sublist ((List.filter_sublist l).map _))
  · intro n hn1 hn2
    rw [hnames] at hn2
    obtain ⟨d, hd, hdn⟩ := List.mem_map.mp hn2
    have := (List.mem_filter.mp hd).2
    simp only [decide_eq_true_eq] at this
    exact this (hdn ▸ hn1)

theorem seedStyles_names_nodup : (seedStyles.map (fun d => d.name)).Nodup := by decide

/-- C9.  The seed loop is an idempotent upsert keyed by name.  For every Style table with unique
names, whatever ids the store generates: the table after `main` is the table before (every row
as it was, in place, whether or not its name is a seeded one) followed by one new row for each
seeded preset whose name was not present, carrying the columns of that preset; names are still
unique; and running `main` once more changes nothing. -/
theorem main_idempotent_upsert (newId : List Style → String) (table : List Style)
    (hunique : (styleNames table).Nodup) :
    (∃ added : List Style, main newId table = table ++ added ∧
      added.map (fun st => st.data) =
        seedStyles.filter (fun d => decide (d.name ∉ styleNames table))) ∧
    (styleNames (main newId table)).Nodup ∧
    main newId (main newId table) = main newId table :=
  ⟨seedLoop_appends newId seedStyles table seedStyles_names_nodup,
    seedLoop_nodup newId seedStyles table seedStyles_names_nodup hunique,
    seedLoop_fixed newId seedStyles _ (seedLoop_names newId seedStyles table seedStyles_names_nodup)⟩

/-- A table where one preset is already present, with edited columns: only the other is added. -/
theorem main_idempotent_upsert_witness :
    (styleNames exampleTable).Nodup ∧
    main exampleNewId exampleTable =
      exampleTable ++ [{ id := "style_3", data := seedStyles.getLast (by decide) }] ∧
    main exampleNewId (main exampleNewId exampleTable) = main exampleNewId exampleTable :=
  ⟨by decide, by decide,
    (main_idempotent_upsert exampleNewId exampleTable (by decide)).2.2⟩

/-! ## Properties of the productId field -/

theorem splitOnChar_ne_nil (sep : Char) (l : List Char) : splitOnChar sep l ≠ [] := by
  cases l with
  | nil => simp [splitOnChar]
  | cons c cs =>
    unfold splitOnChar
    split <;> simp

theorem splitOnChar_of_not_mem (sep : Char) (l : List Char) (h : sep ∉ l) :
    splitOnChar sep l = [l] := by
  induction l with
  | nil => rfl
  | cons c cs ih =>
    have hc : c ≠ sep := fun heq => h (heq ▸ List.mem_cons_self _ _)
    have hcs : sep ∉ cs := fun hmem => h (List.mem_cons_of_mem _ hmem)
    unfold splitOnChar
    rw [if_neg hc, ih hcs]
    rfl

theorem splitOnChar_append (sep : Char) (a b : List Char) :
    splitOnChar sep (a ++ sep :: b) = splitOnChar sep a ++ splitOnChar sep b := by
  induction a with
  | nil => simp [splitOnChar]
  | cons c cs ih =>
    rw [List.cons_append]
    by_cases hc : c = sep
    · rw [splitOnChar, if_pos hc, ih]
      conv_rhs => rw [splitOnChar, if_pos hc]
      rfl
    · rw [splitOnChar, if_neg hc, ih]
      conv_rhs => rw [splitOnChar, if_neg hc]
      cases hsplit : splitOnChar sep cs with
      | nil => exact absurd hsplit (splitOnChar_ne_nil sep cs)
      | cons x xs => rfl

/-- The last segment of a text that ends, after a last separator, in a separator-free tail. -/
theorem splitOnChar_getLast (sep : Char) (a b : List Char) (h : sep ∉ b) :
    (splitOnChar sep (a ++ sep :: b)).getLast? = some b := by
  rw [splitOnChar_append, splitOnChar_of_not_mem sep b h]
  simp

/-- C10.  For every productId route parameter that is non-empty and contains no slash, and every
product whose id is the global id the loader queries for it (`gid://shopify/Product/` followed
by the parameter), the value of the hidden productId form field, the last slash-separated
segment of that id, is the parameter itself. -/
theorem productIdField_roundtrip (productId : String) (product : Product)
    (hne : productId ≠ "") (hslash : '/' ∉ productId.data)
    (hid : product.id = productGid productId) :
    productIdField (some product) = productId := by
  have hdata : (productGid productId).data =
      "gid://shopify/Product".data ++ '/' :: productId.data := by
    unfold productGid
    rw [String.data_append]
    rfl
  have hlast : (jsSplit product.id '/').getLast? = some productId := by
    unfold jsSplit
    rw [hid, hdata, List.getLast?_map, splitOnChar_getLast _ _ _ hslash]
    rfl
  unfold productIdField
  simp only [hlast]
  have ht : truthyStr (some productId) = true := by
    simpa [truthyStr] using hne
  rw [if_pos ht]
  rfl

/-- The product id of the example scenarios of the specification. -/
theorem productIdField_roundtrip_witness :
    ("778812345" ≠ "" ∧ '/' ∉ "778812345".data) ∧
    productIdField (some { id := productGid "778812345", title := "Mug", featuredImageUrl := none })
      = "778812345" :=
  ⟨⟨by decide, by decide⟩,
    productIdField_roundtrip "778812345" _ (by decide) (by decide) rfl⟩

end Pawtrait
